import Mathlib

/-!
# Verification of `linetools/spectralline.py`

Shallow embedding of the `SpectralLine` / `AbsLine` classes from
`src/linetools/spectralline.py`.  Numeric values are modelled by `ℚ`
(exact arithmetic in place of floats); the square root and logarithm,
which have no rational representation, live in `ℝ`.  Python exceptions
are modelled by `Except PyErr`.
-/

set_option autoImplicit false

namespace SpectralLineModel

/-- Python exceptions that the translated code can raise. -/
inductive PyErr where
  | valueError (msg : String)
  | assertionError
  | nameError (id : String)
  | attributeError (id : String)
  | indexError
deriving DecidableEq, Repr

/-- A spectral data array (flux, sigma, dispersion, ...). -/
abbrev Arr := List ℚ

/-- Modelled from the spec: the `SpectrumProvider` collaborator
(`linetools.spectra`, not under `src/`).  It exposes `flux`, `sigma`,
`dispersion` (with a flag recording whether the dispersion axis unit is
the dimensionless 1), an optional `continuum` array, a pixel-range
lookup for a wavelength window (`pix_minmax(wvlim)`), a pixel-range
lookup for a velocity window (`pix_minmax(z, wrest, vlim)`), and a
velocity axis relative to a centre wavelength (`relative_vel`). -/
structure Spectrum where
  flux : Arr
  sig : Arr
  dispersion : Arr
  conti : Option Arr
  unitIsOne : Bool
  pix_minmax_w : ℚ × ℚ → ℕ × ℕ
  pix_minmax_v : ℚ → ℚ → ℚ × ℚ → ℕ × ℕ
  relative_vel : ℚ → Arr

/-- Modelled from the spec: slicing an array to an inclusive pixel
index range, as done by the spectrum collaborator after `pix_minmax`. -/
def sl (xs : Arr) (p : ℕ × ℕ) : Arr := (xs.drop p.1).take (p.2 + 1 - p.1)

/-- Elementwise array division (numpy `/`). -/
def zipDiv (xs ys : Arr) : Arr := List.zipWith (fun a b => a / b) xs ys

/-- The `analy` dict initialised in `SpectralLine.__init__` (the fields
the measurement code reads). -/
structure Analy where
  spec : Option Spectrum
  wvlim : ℚ × ℚ
  vlim : ℚ × ℚ
  do_analysis : ℤ

/-- The `attrib` dict.  Keys that are only created later by the
measurement methods (`sigEW`, `logN`, `sig_logN`) are `Option`-valued,
mirroring their absence from the dict at construction time. -/
structure Attrib where
  RA : ℚ
  Dec : ℚ
  z : ℚ
  zsig : ℚ
  v : ℚ
  vsig : ℚ
  EW : ℚ
  EWsig : ℚ
  flgEW : ℤ
  sigEW : Option ℝ
  N : Option ℚ
  Nsig : Option ℚ
  flagN : Option ℤ
  b : Option ℚ
  bsig : Option ℚ

/-- The state of an `AbsLine` object relevant to the measurement code. -/
structure AbsLineState where
  wrest : ℚ
  analy : Analy
  attrib : Attrib

/-- `attrib` as initialised by `SpectralLine.__init__` (lines 75-80). -/
def initAttrib : Attrib :=
  { RA := 0, Dec := 0, z := 0, zsig := 0, v := 0, vsig := 0,
    EW := 0, EWsig := 0, flgEW := 0, sigEW := none,
    N := none, Nsig := none, flagN := none, b := none, bsig := none }

/-- The update `AbsLine.fill_data` applies to `attrib` (lines 240-242). -/
def fill_attrib (a : Attrib) : Attrib :=
  { a with N := some 0, Nsig := some 0, flagN := some 0, b := some 0, bsig := some 0 }

/-- `attrib` of a freshly constructed `AbsLine`. -/
def absLineInitAttrib : Attrib := fill_attrib initAttrib

/-- Physical dimension tag of an astropy `Quantity`. -/
inductive Dim where
  | length
  | velocity
  | time
  | dimensionless
deriving DecidableEq

/-- The `trans` argument of `SpectralLine.__init__`: an astropy
`Quantity` (with its dimension), a transition-name string, or any other
Python object. -/
inductive Trans where
  | quantity (d : Dim) (v : ℚ)
  | name (s : String)
  | other
deriving DecidableEq

/-- `isinstance(trans, (Quantity, basestring))` (line 65). -/
def isQuantityOrStr : Trans → Bool
  | .quantity _ _ => true
  | .name _ => true
  | .other => false

/-- The `InvalidTransition` error raised at line 66. -/
def invalidTransitionErr : PyErr := .valueError "Rest wavelength must be a Quantity or str"

/-- The argument checks of `SpectralLine.__init__` (lines 60-66): the
line-type check followed by the transition-type check. -/
def spectralLine_init_check (ltype : String) (t : Trans) : Except PyErr Unit :=
  if ¬ (["Abs"].contains ltype) then
    .error (.valueError "spec/lines: Not ready for type")
  else if isQuantityOrStr t then .ok () else .error invalidTransitionErr

/-- The `MissingWindow` error raised at line 100. -/
def missingWindowErr : PyErr := .valueError "spectralline.cut_spec: Need to set wvlim!"

/-- `SpectralLine.cut_spec` (lines 86-124): precondition checks, pixel
slicing, and the optional continuum normalization whose missing-`conti`
`AttributeError` is swallowed. -/
def cut_spec (s : AbsLineState) (normalize : Bool) : Except PyErr (Arr × Arr × Arr) :=
  if s.analy.wvlim.1 + s.analy.wvlim.2 = 0 then .error missingWindowErr
  else
    match s.analy.spec with
    | none => .error (.valueError "spectralline.cut_spec: Need to set spectrum!")
    | some sp =>
      if sp.unitIsOne then .error (.valueError "Expecting a unit!")
      else
        let pix := sp.pix_minmax_w s.analy.wvlim
        let fx := sl sp.flux pix
        let sig := sl sp.sig pix
        let wave := sl sp.dispersion pix
        if normalize then
          match sp.conti with
          | none => .ok (fx, sig, wave)
          | some c => .ok (zipDiv fx (sl c pix), zipDiv sig (sl c pix), wave)
        else .ok (fx, sig, wave)

/-- `np.roll(xs, 1)`: rotate the array one place to the right. -/
def np_roll1 (xs : Arr) : Arr :=
  match xs.getLast? with
  | none => []
  | some a => a :: xs.dropLast

/-- The bin-width computation shared verbatim by `box_ew` (lines
145-146, `dwv`) and `aodm` (lines 275-276, `delv`):
`d = x - np.roll(x, 1); d[0] = d[1]`.  `none` models the `IndexError`
raised by `d[0] = d[1]` on arrays of fewer than two pixels. -/
def dwvOf (xs : Arr) : Option Arr :=
  let d := List.zipWith (fun a b => a - b) xs (np_roll1 xs)
  if 2 ≤ d.length then some (d.set 0 (d.getD 1 0)) else none

theorem np_roll1_length (xs : Arr) : (np_roll1 xs).length = xs.length := by
  cases xs with
  | nil => rfl
  | cons a t =>
    rw [np_roll1]
    cases h : (a :: t).getLast? with
    | none => exact absurd (List.getLast?_eq_none_iff.mp h) (List.cons_ne_nil a t)
    | some b => simp

theorem dwvOf_length {xs d : Arr} (h : dwvOf xs = some d) : d.length = xs.length := by
  rw [dwvOf] at h
  by_cases h2 : 2 ≤ (List.zipWith (fun a b => a - b) xs (np_roll1 xs)).length
  · rw [if_pos h2] at h
    cases h
    simp [np_roll1_length]
  · rw [if_neg h2] at h
    cases h

theorem dwvOf_isSome {xs : Arr} (h : 2 ≤ xs.length) : ∃ d, dwvOf xs = some d := by
  have h2 : 2 ≤ (List.zipWith (fun a b => a - b) xs (np_roll1 xs)).length := by
    simpa [np_roll1_length] using h
  exact ⟨_, by rw [dwvOf]; exact if_pos h2⟩

/-- `SpectralLine.box_ew` (lines 128-160): normalized slice, bin
widths with the edge convention, boxcar sums, square-root error, and
the in-place update of `attrib` under the keys `EW` and `sigEW`. -/
noncomputable def box_ew (s : AbsLineState) : Except PyErr (ℚ × ℝ × AbsLineState) :=
  match cut_spec s true with
  | .error e => .error e
  | .ok (fx, sig, wv) =>
    match dwvOf wv with
    | none => .error .indexError
    | some dwv =>
      let EW : ℚ := (List.zipWith (fun d f => d * (1 - f)) dwv fx).sum
      let varEW : ℚ := (List.zipWith (fun d g => d ^ 2 * g ^ 2) dwv sig).sum
      let sigEW : ℝ := Real.sqrt (varEW : ℝ)
      .ok (EW, sigEW,
        { s with attrib := { s.attrib with EW := EW, sigEW := some sigEW } })

/-- `SpectralLine.restew` (lines 163-174): call `box_ew`, then divide
the stored `EW` and `sigEW` by `(z + 1)` and return them. -/
noncomputable def restew (s : AbsLineState) : Except PyErr (ℚ × ℝ × AbsLineState) :=
  match box_ew s with
  | .error e => .error e
  | .ok (ew, sg, s1) =>
    let z := s1.attrib.z
    let ew2 := ew / (z + 1)
    let sg2 := sg / ((z : ℝ) + 1)
    .ok (ew2, sg2, { s1 with attrib := { s1.attrib with EW := ew2, sigEW := some sg2 } })

/-- `AbsLine.aodm` (lines 245-311) as the code actually executes.
`set_spec` and `parse_spec` are not under `src/`; they are Modelled
from the spec: `set_spec` grabs the bound spectrum, `parse_spec`
slices flux and sigma and, when a continuum override is supplied,
divides both by it over the same range.  After the velocity axis, the
pixel slice and the `delv` bin widths (whose `delv[0] = delv[1]`
assignment raises `IndexError` on windows of fewer than two pixels),
line 279 executes the unconditional placeholder `assert False`, so no
call ever proceeds further. -/
def aodm (s : AbsLineState) (conti : Option Arr) : Except PyErr (ℚ × ℚ) :=
  match s.analy.spec with
  | none => .error (.attributeError "set_spec")
  | some sp =>
    let velo := sp.relative_vel (s.wrest * (1 + s.attrib.z))
    let pix := sp.pix_minmax_v s.attrib.z s.wrest s.analy.vlim
    let velos := sl velo pix
    let fx := match conti with
      | none => sl sp.flux pix
      | some c => zipDiv (sl sp.flux pix) (sl c pix)
    let sig := match conti with
      | none => sl sp.sig pix
      | some c => zipDiv (sl sp.sig pix) (sl c pix)
    match dwvOf velos with
    | none => .error .indexError
    | some _ =>
      let _ := fx
      let _ := sig
      .error .assertionError

/-- The saturated-pixel index set of `aodm` (line 287):
`np.where((fx <= sig/5.) | (fx < 0.05))[0]`. -/
def satp_idx (fx sig : Arr) : List ℕ :=
  (List.range fx.length).filter
    (fun i => decide (fx.getD i 0 ≤ sig.getD i 0 / 5 ∨ fx.getD i 0 < 1 / 20))

/-- The saturated pixels with positive error (line 290):
`np.where(sig[satp] > 0.)[0]`, kept as indices into the slice. -/
def lim_idx (fx sig : Arr) : List ℕ :=
  (satp_idx fx sig).filter (fun i => decide (0 < sig.getD i 0))

/-- `flg_sat = len(lim)` (line 294). -/
def flg_sat (fx sig : Arr) : ℕ := (lim_idx fx sig).length

/-- The continuation of `aodm` past the placeholder assert (lines
282-308), i.e. what the code would do were line 279 removed.  In the
branch with saturated positive-sigma pixels it reaches the explicit
`raise ValueError('USE FLG_SAT')` (line 295); in every other branch it
reaches `xsb.lin_to_log` (line 306) where the name `xsb` is undefined
(its import is commented out, line 26), a `NameError`.  The per-pixel
integrand values computed before those unavoidable raises are factored
out as `aodmNndt`/`aodmNtot` below, since the raise discards them. -/
def aodm_afterAssert (fx sig : Arr) : Except PyErr Unit :=
  if lim_idx fx sig ≠ [] then .error (.valueError "USE FLG_SAT")
  else .error (.nameError "xsb")

/-- The per-pixel integrand `nndt` of `aodm` (lines 284-297):
`ln(1/flux)·cst` on unsaturated pixels, the floor-substituted
`ln(1/max(0.05, sig/5))·cst` on saturated pixels with `sig > 0`, and
`0` on masked saturated pixels with `sig ≤ 0`. -/
noncomputable def aodmNndt (fx sig : Arr) (cst : ℝ) : List ℝ :=
  (List.range fx.length).map fun i =>
    let f := fx.getD i 0
    let g := sig.getD i 0
    if f ≤ g / 5 ∨ f < 1 / 20 then
      if 0 < g then Real.log ((1 : ℝ) / (max (1 / 20 : ℚ) (g / 5) : ℚ)) * cst else 0
    else Real.log ((1 : ℝ) / (f : ℚ)) * cst

/-- `ntot = np.sum(nndt * delv)` (line 300). -/
noncomputable def aodmNtot (fx sig delv : Arr) (cst : ℝ) : ℝ :=
  (List.zipWith (fun a b => a * b) (aodmNndt fx sig cst) (delv.map fun q => (q : ℝ))).sum

/-- A concrete bound spectrum used in witnesses: three pixels of fully
unsaturated unit flux, zero error, no continuum, and a pixel lookup
selecting the whole range. -/
def spW : Spectrum :=
  { flux := [1, 1, 1], sig := [0, 0, 0], dispersion := [0, 1, 2],
    conti := none, unitIsOne := false,
    pix_minmax_w := fun _ => (0, 2),
    pix_minmax_v := fun _ _ _ => (0, 2),
    relative_vel := fun _ => [0, 1, 2] }

/-- A concrete line state bound to `spW`, with redshift 1. -/
def sW : AbsLineState :=
  { wrest := 1215,
    analy := { spec := some spW, wvlim := (1, 2), vlim := (-100, 100), do_analysis := 1 },
    attrib := { absLineInitAttrib with z := 1 } }

end SpectralLineModel

deriving instance DecidableEq for Except

namespace SpectralLineModel

theorem cut_spec_sW : cut_spec sW true = .ok ([1, 1, 1], [0, 0, 0], [0, 1, 2]) := by
  norm_num [cut_spec, sW, spW, sl]

/-- The state `box_ew` leaves behind when run on `sW`. -/
noncomputable def sW0 : AbsLineState :=
  { sW with attrib := { sW.attrib with EW := 0, sigEW := some 0 } }

theorem box_ew_sW : box_ew sW = .ok (0, 0, sW0) := by
  rw [box_ew, cut_spec_sW]
  norm_num [dwvOf, np_roll1, sW0]

/-- An elementwise `zipWith`-and-sum equals the index-wise sum over the
common length. -/
theorem zipWith_sum_range (f : ℚ → ℚ → ℚ) :
    ∀ xs ys : List ℚ, xs.length = ys.length →
      (List.zipWith f xs ys).sum =
        ∑ i ∈ Finset.range xs.length, f (xs.getD i 0) (ys.getD i 0) := by
  intro xs
  induction xs with
  | nil => intro ys _; simp
  | cons a t ih =>
    intro ys hy
    cases ys with
    | nil => simp at hy
    | cons b u =>
      have hl : t.length = u.length := by simpa using hy
      simp only [List.zipWith, List.sum_cons, ih u hl, List.length_cons]
      rw [Finset.sum_range_succ']
      simp [add_comm]

theorem getD_set_zero (l : List ℚ) (v : ℚ) (h : 0 < l.length) :
    (l.set 0 v).getD 0 0 = v := by
  cases l with
  | nil => simp at h
  | cons a t => simp

theorem getD_set_zero_one (l : List ℚ) (v : ℚ) : (l.set 0 v).getD 1 0 = l.getD 1 0 := by
  cases l with
  | nil => simp
  | cons a t => cases t <;> simp

/-- A line state whose configured wavelength window is `(-1, 1)`:
not the degenerate pair `(0, 0)`, yet summing to zero. -/
def sCex : AbsLineState := { sW with analy := { sW.analy with wvlim := (-1, 1) } }

/-- C3, counterexample: the claim says `cut_spec` fails with the
missing-window error only when `wavelengthWindow` is the degenerate
pair `(0, 0)`; but the code tests `np.sum(wvlim) == 0.` (line 99), so
the window `(-1, 1)`, which is not `(0, 0)`, also fails with that
error on a record with a bound, unit-carrying spectrum. -/
theorem claim3_counterexample :
    cut_spec sCex false = .error missingWindowErr ∧ sCex.analy.wvlim ≠ (0, 0) := by
  constructor
  · norm_num [cut_spec, sCex, sW]
  · norm_num [sCex, sW]

/-- C3, amended: for a record with a bound spectrum whose dispersion
axis carries a unit, `cut_spec` fails with the missing-window error iff
the two window entries sum to zero (`np.sum(wvlim) == 0`); any window
with nonzero sum proceeds to slicing; and for windows with nonnegative
entries, summing to zero coincides with being exactly `(0, 0)`. -/
theorem claim3_missing_window_iff_zero_sum (s : AbsLineState) (sp : Spectrum) (n : Bool)
    (hs : s.analy.spec = some sp) (hu : sp.unitIsOne = false) :
    (cut_spec s n = .error missingWindowErr ↔ s.analy.wvlim.1 + s.analy.wvlim.2 = 0)
    ∧ (s.analy.wvlim.1 + s.analy.wvlim.2 ≠ 0 → ∃ r, cut_spec s n = .ok r)
    ∧ (0 ≤ s.analy.wvlim.1 → 0 ≤ s.analy.wvlim.2 →
        (s.analy.wvlim.1 + s.analy.wvlim.2 = 0 ↔ s.analy.wvlim = (0, 0))) := by
  have hmain : s.analy.wvlim.1 + s.analy.wvlim.2 ≠ 0 → ∃ r, cut_spec s n = .ok r := by
    intro hne
    rw [cut_spec, if_neg hne, hs]
    simp only [hu, Bool.false_eq_true, if_false]
    cases n with
    | false => exact ⟨_, rfl⟩
    | true =>
      cases hc : sp.conti with
      | none => exact ⟨_, rfl⟩
      | some c => exact ⟨_, rfl⟩
  refine ⟨⟨fun h => ?_, fun h0 => by rw [cut_spec, if_pos h0]⟩, hmain, fun h1 h2 => ?_⟩
  · by_contra hne
    obtain ⟨r, hr⟩ := hmain hne
    rw [hr] at h
    cases h
  · constructor
    · intro h0
      obtain ⟨ha, hb⟩ := (add_eq_zero_iff_of_nonneg h1 h2).mp h0
      exact Prod.ext_iff.mpr ⟨ha, hb⟩
    · intro he
      rw [he]
      norm_num

/-- Witness for C3's amended theorem: the concrete record `sW` (bound
spectrum `spW`, window `(1, 2)`). -/
theorem claim3_missing_window_iff_zero_sum_witness :
    (cut_spec sW true = .error missingWindowErr ↔ sW.analy.wvlim.1 + sW.analy.wvlim.2 = 0)
    ∧ (sW.analy.wvlim.1 + sW.analy.wvlim.2 ≠ 0 → ∃ r, cut_spec sW true = .ok r)
    ∧ (0 ≤ sW.analy.wvlim.1 → 0 ≤ sW.analy.wvlim.2 →
        (sW.analy.wvlim.1 + sW.analy.wvlim.2 = 0 ↔ sW.analy.wvlim = (0, 0))) :=
  claim3_missing_window_iff_zero_sum sW spW true rfl rfl

/-- C8, counterexample: the claim says a quantity whose dimension is
not a length is rejected with `InvalidTransition`; but the check at
line 65 is `isinstance(trans, (Quantity, basestring))`, which any
`Quantity` passes, so a velocity-dimensioned quantity is accepted. -/
theorem claim8_counterexample :
    spectralLine_init_check "Abs" (Trans.quantity Dim.velocity 5) = .ok () := by
  simp [spectralLine_init_check, isQuantityOrStr]

/-- C8, amended: construction fails with `InvalidTransition` exactly
when the transition argument is neither a `Quantity` (of any physical
dimension) nor a string; the dimension of a quantity is not inspected
by this check. -/
theorem claim8_invalid_transition_iff (t : Trans) :
    spectralLine_init_check "Abs" t = .error invalidTransitionErr
      ↔ isQuantityOrStr t = false := by
  cases t <;> simp [spectralLine_init_check, isQuantityOrStr, invalidTransitionErr]

/-- C6: the shared bin-width computation of `box_ew` (`dwv`, lines
145-146) and `aodm` (`delv`, lines 275-276) yields, on any sliced
array of at least two pixels, an array whose first entry equals its
second (`d[0] == d[1]` after the edge convention `d[0] = d[1]`). -/
theorem claim6_first_bin_eq_second (xs : Arr) (h : 2 ≤ xs.length) :
    ∃ d, dwvOf xs = some d ∧ d.getD 0 0 = d.getD 1 0 := by
  have h2 : 2 ≤ (List.zipWith (fun a b => a - b) xs (np_roll1 xs)).length := by
    simpa [np_roll1_length] using h
  refine ⟨_, by rw [dwvOf]; exact if_pos h2, ?_⟩
  rw [getD_set_zero _ _ (lt_of_lt_of_le (by norm_num) h2), getD_set_zero_one]

/-- Witness for C6: the three-pixel wavelength slice `[0, 1, 2]`. -/
theorem claim6_first_bin_eq_second_witness :
    2 ≤ ([0, 1, 2] : Arr).length
    ∧ ∃ d, dwvOf [0, 1, 2] = some d ∧ d.getD 0 0 = d.getD 1 0 :=
  ⟨by norm_num, claim6_first_bin_eq_second [0, 1, 2] (by norm_num)⟩

/-- Inversion for a successful `box_ew` call: the final state is the
input state with `EW` and `sigEW` overwritten by the returned values. -/
theorem box_ew_state {s : AbsLineState} {ew : ℚ} {sg : ℝ} {s1 : AbsLineState}
    (hb : box_ew s = .ok (ew, sg, s1)) :
    s1 = { s with attrib := { s.attrib with EW := ew, sigEW := some sg } } := by
  rw [box_ew] at hb
  split at hb
  · cases hb
  · split at hb
    · cases hb
    · obtain ⟨he, hg, hst⟩ := by simpa using hb
      rw [← hst, ← he, ← hg]

/-- C5: on every successful `box_ew` call, with `dwv` the bin widths
of the sliced wavelength array (edge convention applied), the returned
equivalent width is `Σ dwv·(1 − flux)` over the pixels and the
returned error is `sqrt(Σ dwv²·sigma²)` — flux and sigma being the
normalized slices that `cut_spec(normalize=True)` delivered. -/
theorem claim5_box_ew_formulas (s : AbsLineState) (fx sig wv : Arr)
    (hcut : cut_spec s true = .ok (fx, sig, wv)) (h2 : 2 ≤ wv.length)
    (hlf : fx.length = wv.length) (hls : sig.length = wv.length) :
    ∃ dwv, dwvOf wv = some dwv ∧
      box_ew s = .ok
        (∑ i ∈ Finset.range wv.length, dwv.getD i 0 * (1 - fx.getD i 0),
         Real.sqrt ((∑ i ∈ Finset.range wv.length, (dwv.getD i 0) ^ 2 * (sig.getD i 0) ^ 2 : ℚ)),
         { s with attrib := { s.attrib with
            EW := ∑ i ∈ Finset.range wv.length, dwv.getD i 0 * (1 - fx.getD i 0),
            sigEW := some (Real.sqrt
              ((∑ i ∈ Finset.range wv.length,
                  (dwv.getD i 0) ^ 2 * (sig.getD i 0) ^ 2 : ℚ))) } }) := by
  obtain ⟨dwv, hd⟩ := dwvOf_isSome h2
  have hlen : dwv.length = wv.length := dwvOf_length hd
  have hEW : (List.zipWith (fun d f => d * (1 - f)) dwv fx).sum =
      ∑ i ∈ Finset.range wv.length, dwv.getD i 0 * (1 - fx.getD i 0) := by
    rw [zipWith_sum_range _ dwv fx (by rw [hlen, hlf]), hlen]
  have hVar : (List.zipWith (fun d g => d ^ 2 * g ^ 2) dwv sig).sum =
      ∑ i ∈ Finset.range wv.length, (dwv.getD i 0) ^ 2 * (sig.getD i 0) ^ 2 := by
    rw [zipWith_sum_range _ dwv sig (by rw [hlen, hls]), hlen]
  refine ⟨dwv, hd, ?_⟩
  rw [box_ew, hcut]
  simp only [hd, hEW, hVar]

/-- Witness for C5: `box_ew` on the concrete record `sW`. -/
theorem claim5_box_ew_formulas_witness :
    (cut_spec sW true = .ok ([1, 1, 1], [0, 0, 0], [0, 1, 2]))
    ∧ ∃ dwv, dwvOf [0, 1, 2] = some dwv ∧
      box_ew sW = .ok
        (∑ i ∈ Finset.range ([0, 1, 2] : Arr).length,
            dwv.getD i 0 * (1 - ([1, 1, 1] : Arr).getD i 0),
         Real.sqrt ((∑ i ∈ Finset.range ([0, 1, 2] : Arr).length,
            (dwv.getD i 0) ^ 2 * (([0, 0, 0] : Arr).getD i 0) ^ 2 : ℚ)),
         { sW with attrib := { sW.attrib with
            EW := ∑ i ∈ Finset.range ([0, 1, 2] : Arr).length,
              dwv.getD i 0 * (1 - ([1, 1, 1] : Arr).getD i 0),
            sigEW := some (Real.sqrt
              ((∑ i ∈ Finset.range ([0, 1, 2] : Arr).length,
                  (dwv.getD i 0) ^ 2 * (([0, 0, 0] : Arr).getD i 0) ^ 2 : ℚ))) } }) :=
  ⟨cut_spec_sW,
   claim5_box_ew_formulas sW [1, 1, 1] [0, 0, 0] [0, 1, 2] cut_spec_sW
     (by norm_num) (by norm_num) (by norm_num)⟩

/-- C4: whenever `box_ew` succeeds and the stored redshift exceeds
`-1`, `restew` returns exactly the `box_ew` results divided by
`(1 + z)`, for both the equivalent width and its error, and stores the
rest-frame pair in the record's attributes. -/
theorem claim4_restew_rest_frame (s : AbsLineState) (ew : ℚ) (sg : ℝ) (s1 : AbsLineState)
    (hb : box_ew s = .ok (ew, sg, s1)) (hz : -1 < s.attrib.z) :
    ∃ s2, restew s = .ok (ew / (1 + s.attrib.z), sg / (1 + (s.attrib.z : ℝ)), s2)
      ∧ s2.attrib.EW = ew / (1 + s.attrib.z)
      ∧ s2.attrib.sigEW = some (sg / (1 + (s.attrib.z : ℝ))) := by
  have hzs : s1.attrib.z = s.attrib.z := by rw [box_ew_state hb]
  refine ⟨{ s1 with attrib := { s1.attrib with
      EW := ew / (1 + s.attrib.z),
      sigEW := some (sg / (1 + (s.attrib.z : ℝ))) } }, ?_, rfl, rfl⟩
  rw [restew, hb]
  simp only [hzs]
  rw [add_comm s.attrib.z 1, add_comm (s.attrib.z : ℝ) 1]

/-- Witness for C4: `restew` on the concrete record `sW` (z = 1). -/
theorem claim4_restew_rest_frame_witness :
    (box_ew sW = .ok (0, 0, sW0)) ∧ (-1 < sW.attrib.z)
    ∧ ∃ s2, restew sW = .ok ((0 : ℚ) / (1 + sW.attrib.z),
          (0 : ℝ) / (1 + (sW.attrib.z : ℝ)), s2)
        ∧ s2.attrib.EW = (0 : ℚ) / (1 + sW.attrib.z)
        ∧ s2.attrib.sigEW = some ((0 : ℝ) / (1 + (sW.attrib.z : ℝ))) :=
  ⟨box_ew_sW, by norm_num [sW, absLineInitAttrib, fill_attrib, initAttrib],
   claim4_restew_rest_frame sW 0 0 sW0 box_ew_sW
     (by norm_num [sW, absLineInitAttrib, fill_attrib, initAttrib])⟩

/-- C10: `box_ew` (and `restew` after it) store the equivalent-width
error under the key `sigEW`; the key `EWsig` written at construction
keeps its default value `0` and is never updated. -/
theorem claim10_sigEW_vs_EWsig (s : AbsLineState) (ew : ℚ) (sg : ℝ) (s1 : AbsLineState)
    (hb : box_ew s = .ok (ew, sg, s1)) :
    absLineInitAttrib.EWsig = 0
    ∧ s1.attrib.EWsig = s.attrib.EWsig
    ∧ s1.attrib.sigEW = some sg
    ∧ ∀ ew2 sg2 s2, restew s = .ok (ew2, sg2, s2) →
        s2.attrib.EWsig = s.attrib.EWsig ∧ s2.attrib.sigEW = some sg2 := by
  have h1 := box_ew_state hb
  refine ⟨rfl, by rw [h1], by rw [h1], ?_⟩
  intro ew2 sg2 s2 hr
  rw [restew, hb] at hr
  obtain ⟨he2, hg2, hst⟩ := by simpa using hr
  rw [← hst, ← hg2, h1]
  exact ⟨rfl, rfl⟩

/-- Witness for C10: `box_ew` on the concrete record `sW`. -/
theorem claim10_sigEW_vs_EWsig_witness :
    (box_ew sW = .ok (0, 0, sW0))
    ∧ (absLineInitAttrib.EWsig = 0
      ∧ sW0.attrib.EWsig = sW.attrib.EWsig
      ∧ sW0.attrib.sigEW = some 0
      ∧ ∀ ew2 sg2 s2, restew sW = .ok (ew2, sg2, s2) →
          s2.attrib.EWsig = sW.attrib.EWsig ∧ s2.attrib.sigEW = some sg2) :=
  ⟨box_ew_sW, claim10_sigEW_vs_EWsig sW 0 0 sW0 box_ew_sW⟩

/-- C9: when normalization is requested but the bound spectrum has no
continuum array, `cut_spec` succeeds and returns exactly the raw flux,
sigma and wavelength slices — the same triple a non-normalizing call
returns — so normalization is silently skipped, with no partial
division and no error. -/
theorem claim9_normalize_skipped_without_continuum (s : AbsLineState) (sp : Spectrum)
    (hs : s.analy.spec = some sp) (hc : sp.conti = none)
    (hw : s.analy.wvlim.1 + s.analy.wvlim.2 ≠ 0) (hu : sp.unitIsOne = false) :
    cut_spec s true = .ok (sl sp.flux (sp.pix_minmax_w s.analy.wvlim),
        sl sp.sig (sp.pix_minmax_w s.analy.wvlim),
        sl sp.dispersion (sp.pix_minmax_w s.analy.wvlim))
    ∧ cut_spec s true = cut_spec s false := by
  rw [cut_spec, cut_spec, if_neg hw, if_neg hw, hs]
  simp [hu, hc]

/-- Witness for C9: the concrete record `sW`, whose spectrum `spW`
carries no continuum. -/
theorem claim9_normalize_skipped_without_continuum_witness :
    cut_spec sW true = .ok (sl spW.flux (spW.pix_minmax_w sW.analy.wvlim),
        sl spW.sig (spW.pix_minmax_w sW.analy.wvlim),
        sl spW.dispersion (spW.pix_minmax_w sW.analy.wvlim))
    ∧ cut_spec sW true = cut_spec sW false :=
  claim9_normalize_skipped_without_continuum sW spW rfl rfl (by norm_num [sW]) rfl

/-- A bound spectrum with one saturated pixel: flux `0.01 < 0.05` at
pixel 1, with positive error `sigma = 0.02` everywhere. -/
def spSat : Spectrum := { spW with flux := [1, 1 / 100, 1], sig := [1 / 50, 1 / 50, 1 / 50] }

/-- The line record bound to `spSat`. -/
def sSat : AbsLineState := { sW with analy := { sW.analy with spec := some spSat } }

/-- A bound spectrum that is everywhere unsaturated but nontrivial:
flux `0.5`, error `0.01`. -/
def spHalf : Spectrum :=
  { spW with flux := [1 / 2, 1 / 2, 1 / 2], sig := [1 / 100, 1 / 100, 1 / 100] }

/-- The line record bound to `spHalf`. -/
def sHalf : AbsLineState := { sW with analy := { sW.analy with spec := some spHalf } }

/-- C1, code-bug evidence: on the record `sW`, whose normalized flux
is `1` at every pixel of the window, `aodm` raises `AssertionError` at
the unconditional placeholder `assert False` (line 279) instead of
returning `N = 0`; yet the claim is right about the algorithm, since
the integrand the dead code would build from unit flux is
`ln(1/1)·cst = 0` at every pixel, so `N = Σ nndt·delv` would be `0`
for any bin widths and any value of the constant. -/
theorem claim1_aodm_asserts_on_unit_flux :
    aodm sW none = .error .assertionError
    ∧ ∀ (delv : Arr) (cst : ℝ), aodmNtot [1, 1, 1] [0, 0, 0] delv cst = 0 := by
  constructor
  · norm_num [aodm, sW, spW, sl, dwvOf, np_roll1]
  · intro delv cst
    have hr : List.range 3 = [0, 1, 2] := rfl
    have hn : aodmNndt [1, 1, 1] [0, 0, 0] cst = [0, 0, 0] := by
      rw [aodmNndt]
      norm_num [hr, Real.log_one]
    rw [aodmNtot, hn]
    rcases delv with _ | ⟨a, _ | ⟨b, _ | ⟨c, t⟩⟩⟩ <;> simp

/-- C2, code-bug evidence: on the record `sSat`, whose window has one
pixel with `flux = 0.01 < 0.05` and `sigma = 0.02 > 0`, `aodm` raises
`AssertionError` at line 279 before the saturation branch is ever
reached; and even with that placeholder removed, the branch computes
`flg_sat = 1` (exactly the number of saturated positive-sigma pixels,
as the claim demands) but then raises `ValueError('USE FLG_SAT')`
(line 295) instead of returning a result. -/
theorem claim2_saturation_branch_raises :
    aodm sSat none = .error .assertionError
    ∧ aodm_afterAssert [1, 1 / 100, 1] [1 / 50, 1 / 50, 1 / 50]
        = .error (.valueError "USE FLG_SAT")
    ∧ flg_sat [1, 1 / 100, 1] [1 / 50, 1 / 50, 1 / 50] = 1 := by
  have hr : List.range 3 = [0, 1, 2] := rfl
  have hsat : satp_idx [1, 1 / 100, 1] [1 / 50, 1 / 50, 1 / 50] = [1] := by
    rw [satp_idx]
    norm_num [hr, List.filter]
  have hlim : lim_idx [1, 1 / 100, 1] [1 / 50, 1 / 50, 1 / 50] = [1] := by
    rw [lim_idx, hsat]
    norm_num [List.filter]
  refine ⟨?_, ?_, ?_⟩
  · norm_num [aodm, sSat, spSat, sW, spW, sl, dwvOf, np_roll1]
  · rw [aodm_afterAssert, if_pos (by rw [hlim]; exact List.cons_ne_nil 1 [])]
  · rw [flg_sat, hlim]
    rfl

/-- C7, code-bug evidence: on the record `sHalf`, a well-posed
unsaturated measurement, `aodm` raises `AssertionError` at line 279,
and even past that placeholder the conversion to logarithmic column
density is unreachable: `xsb.lin_to_log` (line 306) raises `NameError`
because the `xsb` import is commented out (line 26), so `logN` and
`sig_logN` are never computed or stored. -/
theorem claim7_log_conversion_unreachable :
    aodm sHalf none = .error .assertionError
    ∧ aodm_afterAssert [1 / 2, 1 / 2, 1 / 2] [1 / 100, 1 / 100, 1 / 100]
        = .error (.nameError "xsb") := by
  have hr : List.range 3 = [0, 1, 2] := rfl
  have hsat : satp_idx [1 / 2, 1 / 2, 1 / 2] [1 / 100, 1 / 100, 1 / 100] = [] := by
    rw [satp_idx]
    norm_num [hr, List.filter]
  constructor
  · norm_num [aodm, sHalf, spHalf, sW, spW, sl, dwvOf, np_roll1]
  · rw [aodm_afterAssert, if_neg (by rw [lim_idx, hsat]; simp)]

end SpectralLineModel
